import Mathlib

/-!
Shallow embedding of the telemetry driver (`src/azext_iot/operations/_mqtt.py`)
and the event-consumer entry point (`src/azext_iot/operations/central.py`) of
the azure-iot-cli-extension repository, with theorems settling the spec claims.

Modelling conventions:
* The wrapper's mutable fields (`self.connected`, the paho network-loop thread
  started by `loop_start`, the subscription made in `on_connect`) become a
  `Driver` record threaded explicitly.
* The asynchronous writes the I/O thread performs on `self.connected` are
  modelled by an environment trace `conn : Nat → Bool` giving the value the
  flag holds when iteration `i` of the publish loop polls it.
* `data.generate(True)` is modelled as reading a list of payloads in order;
  the call count equals the current value of `msgs`, so call number `n` reads
  element `n`; an exhausted stream makes the call fail (a Python exception).
* Python exceptions become `Except` / an `errored` exit kind; the dictionary
  lookup `connection_result[rc]` raises `KeyError` for absent keys, modelled
  as `Except.error rc`.
* The unbounded `while True:` loop is given explicit fuel; running out of
  fuel (`ExitKind.outOfFuel`) models the loop still running, so the `finally`
  block has not executed on that path.
-/

/-- State of one `mqtt_client_wrap` instance: the wrapper's `self.connected`
flag, whether `subscribe` on the device-bound topic has been issued, and
whether the paho network-loop background thread is running
(`loop_start` / `loop_stop`). -/
structure Driver where
  connected : Bool
  subscribed : Bool
  loopRunning : Bool
deriving DecidableEq

/-- The module-level result-code table of `_mqtt.py` (lines 19-20): a partial
map from the handshake result code to a human-readable reason. Keys outside
`{0,...,5}` are absent (`none`), exactly as in the Python dict. -/
def connection_result : Nat → Option String
  | 0 => some "success"
  | 1 => some "refused - incorrect protocol version"
  | 2 => some "refused - invalid client id"
  | 3 => some "refused - server unavailable"
  | 4 => some "refused - bad username or password"
  | 5 => some "refused - not authorized"
  | _ => none

/-- `mqtt_client_wrap.on_connect`: formats `connection_result[rc]` (a plain
dict lookup, so a `KeyError` — modelled as `Except.error rc` — is raised when
`rc` is not a key, before anything else happens), then subscribes to the
device-bound topic and sets `self.connected = True`, unconditionally in `rc`.
On success it returns the reason string that was reported. -/
def on_connect (d : Driver) (rc : Nat) : Except Nat (Driver × String) :=
  match connection_result rc with
  | none => Except.error rc
  | some reason =>
      Except.ok ({ d with subscribed := true, connected := true }, reason)

/-- `mqtt_client_wrap.is_connected`: returns `self.connected`. -/
def is_connected (d : Driver) : Bool :=
  d.connected

/-- `client.loop_start()`: starts the paho network-loop background thread. It
does not touch the wrapper's `connected` flag. -/
def loop_start (d : Driver) : Driver :=
  { d with loopRunning := true }

/-- `client.loop_stop()`: stops (joins) the paho network-loop background
thread. It does not touch the wrapper's `connected` flag. -/
def loop_stop (d : Driver) : Driver :=
  { d with loopRunning := false }

/-- Observable actions of one iteration of the publish loop in
`mqtt_client_wrap.execute`: a `client.publish` call and a
`sleep(publish_delay)` call, each tagged with the iteration index. -/
inductive Event where
  | publish (iter : Nat) (payload : String)
  | sleep (iter : Nat) (duration : Nat)
deriving DecidableEq

/-- How control left the `while True:` loop of `execute`: `completed` is the
`break` once `msgs` reaches `msg_count`; `errored` is a Python exception
(the modelled one: `data.generate(True)` failing on an exhausted stream);
`outOfFuel` means the loop was still running when the fuel ran out. -/
inductive ExitKind where
  | completed
  | errored
  | outOfFuel
deriving DecidableEq

/-- Result of running the publish loop: the ordered trace of publish/sleep
events, the index of the iteration at which the loop exited (iterations
`0 ... finalIter - 1` completed and continued), the driver state at exit, and
the exit kind. -/
structure LoopOut where
  trace : List Event
  finalIter : Nat
  finalDriver : Driver
  exit : ExitKind
deriving DecidableEq

/-- The `while True:` loop of `mqtt_client_wrap.execute` (lines 66-74):

```
while True:
    if self.is_connected():
        if msgs < msg_count:
            msgs += 1
            self.client.publish(self.topic_publish, data.generate(True))
        else:
            break
    sleep(publish_delay)
```

`conn i` is the value `self.connected` holds when iteration `i` polls it (the
I/O thread's asynchronous writes); `stream` is the payload sequence behind
`data.generate(True)`, read at position `msgs` (the number of prior calls);
if the stream is exhausted the `generate` call raises, which aborts the loop
before the publish and before the sleep of that iteration. -/
def executeLoop (conn : Nat → Bool) (stream : List String)
    (msg_count publish_delay : Nat) :
    Nat → Nat → Nat → Driver → LoopOut
  | 0, i, _, d => ⟨[], i, d, ExitKind.outOfFuel⟩
  | fuel + 1, i, msgs, d =>
      let d' : Driver := { d with connected := conn i }
      if is_connected d' then
        if msgs < msg_count then
          match stream[msgs]? with
          | some payload =>
              let rest :=
                executeLoop conn stream msg_count publish_delay fuel
                  (i + 1) (msgs + 1) d'
              ⟨Event.publish i payload :: Event.sleep i publish_delay ::
                 rest.trace,
               rest.finalIter, rest.finalDriver, rest.exit⟩
          | none => ⟨[], i, d', ExitKind.errored⟩
        else ⟨[], i, d', ExitKind.completed⟩
      else
        let rest :=
          executeLoop conn stream msg_count publish_delay fuel
            (i + 1) msgs d'
        ⟨Event.sleep i publish_delay :: rest.trace,
         rest.finalIter, rest.finalDriver, rest.exit⟩

/-- Result of `mqtt_client_wrap.execute`: the loop outcome and the driver
state after the `try/finally` has been traversed. -/
structure ExecOut where
  out : LoopOut
  driver : Driver
deriving DecidableEq

/-- `mqtt_client_wrap.execute(data, publish_delay, msg_count)` (lines 63-78):
`msgs = 0`, `self.client.loop_start()`, the `while True:` loop, and a
`finally:` clause running `self.client.loop_stop()`. The `finally` executes
whenever control leaves the `try` block — on the `break` and on an exception
alike — but not while the loop is still running (`ExitKind.outOfFuel`). -/
def execute (d : Driver) (conn : Nat → Bool) (stream : List String)
    (publish_delay msg_count fuel : Nat) : ExecOut :=
  let out := executeLoop conn stream msg_count publish_delay fuel 0 0
    (loop_start d)
  let final :=
    if out.exit = ExitKind.outOfFuel then out.finalDriver
    else loop_stop out.finalDriver
  ⟨out, final⟩

/-- Selects the payload of a publish event. -/
def eventPayload : Event → Option String
  | Event.publish _ p => some p
  | Event.sleep _ _ => none

/-- The payloads published during a run, in publish order. -/
def publishPayloads (tr : List Event) : List String :=
  tr.filterMap eventPayload

/-- Call record handed to the events3 executor by
`iot_central_monitor_events` (`src/azext_iot/operations/central.py`). -/
structure ExecutorCall where
  enqueued_time : Int
  timeout : Int
  properties : List String
  output : String
deriving DecidableEq

/-- Modelled from the spec: the events3 executor
(`azext_iot.operations.events3._events.executor`) is not under `src/`; per
the spec, a forwarded timeout of `0` milliseconds means wait forever — only
external cancellation ends the sequence. -/
def executor_waits_forever (timeout_ms : Int) : Bool :=
  timeout_ms == 0

/-- `iot_central_monitor_events` (`central.py`): validates `timeout`
(raising `CLIError` for negative values before any service is contacted),
converts it to milliseconds, defaults falsy `output` to `"json"`, falsy
`properties` to `[]`, and a falsy `enqueued_time` (Python `None` or `0`) to
the current UTC milliseconds since the epoch (`now_ms`), then calls the
events3 executor with the resulting values. -/
def iot_central_monitor_events (timeout : Int) (enqueued_time : Option Int)
    (properties : Option (List String)) (output : Option String)
    (now_ms : Int) : Except String ExecutorCall :=
  if timeout < 0 then
    Except.error "Monitoring timeout must be 0 (inf) or greater."
  else
    let timeout := timeout * 1000
    let output :=
      match output with
      | none => "json"
      | some o => if o = "" then "json" else o
    let properties :=
      match properties with
      | none => []
      | some ps => ps
    let enq :=
      match enqueued_time with
      | none => now_ms
      | some t => if t = 0 then now_ms else t
    Except.ok
      { enqueued_time := enq, timeout := timeout,
        properties := properties, output := output }

/-! ## Helper lemmas -/

/-- A present lookup at index `n` splits `l.drop n` into that element and the
rest. -/
theorem drop_of_getElem?_some {α : Type} (l : List α) (n : Nat) (a : α)
    (h : l[n]? = some a) : l.drop n = a :: l.drop (n + 1) := by
  induction l generalizing n with
  | nil => simp at h
  | cons x xs ih =>
      cases n with
      | zero => simp_all
      | succ m =>
          simp only [List.getElem?_cons_succ] at h
          simpa using ih m h

/-- An absent lookup at index `n` means `l.drop n` is empty. -/
theorem drop_of_getElem?_none {α : Type} (l : List α) (n : Nat)
    (h : l[n]? = none) : l.drop n = [] := by
  induction l generalizing n with
  | nil => simp
  | cons x xs ih =>
      cases n with
      | zero => simp at h
      | succ m =>
          simp only [List.getElem?_cons_succ] at h
          simpa using ih m h

/-- Unfolding: with no fuel left the loop is still running. -/
theorem executeLoop_zero (conn : Nat → Bool) (stream : List String)
    (m delay i msgs : Nat) (d : Driver) :
    executeLoop conn stream m delay 0 i msgs d =
      ⟨[], i, d, ExitKind.outOfFuel⟩ := rfl

/-- Unfolding: a disconnected iteration only sleeps and continues. -/
theorem executeLoop_step_disconnected (conn : Nat → Bool)
    (stream : List String) (m delay fuel i msgs : Nat) (d : Driver)
    (h : conn i = false) :
    executeLoop conn stream m delay (fuel + 1) i msgs d =
      { executeLoop conn stream m delay fuel (i + 1) msgs
          { d with connected := false } with
        trace := Event.sleep i delay ::
          (executeLoop conn stream m delay fuel (i + 1) msgs
            { d with connected := false }).trace } := by
  simp [executeLoop, is_connected, h]

/-- Unfolding: a connected iteration with `msgs < msg_count` and an available
stream item publishes it, sleeps and continues. -/
theorem executeLoop_step_publish (conn : Nat → Bool) (stream : List String)
    (m delay fuel i msgs : Nat) (d : Driver) (p : String)
    (h : conn i = true) (hm : msgs < m) (hs : stream[msgs]? = some p) :
    executeLoop conn stream m delay (fuel + 1) i msgs d =
      { executeLoop conn stream m delay fuel (i + 1) (msgs + 1)
          { d with connected := true } with
        trace := Event.publish i p :: Event.sleep i delay ::
          (executeLoop conn stream m delay fuel (i + 1) (msgs + 1)
            { d with connected := true }).trace } := by
  simp [executeLoop, is_connected, h, hm, hs]

/-- Unfolding: a connected iteration with `msgs < msg_count` but an exhausted
stream raises inside `data.generate(True)` and aborts the loop. -/
theorem executeLoop_step_exhausted (conn : Nat → Bool) (stream : List String)
    (m delay fuel i msgs : Nat) (d : Driver)
    (h : conn i = true) (hm : msgs < m) (hs : stream[msgs]? = none) :
    executeLoop conn stream m delay (fuel + 1) i msgs d =
      ⟨[], i, { d with connected := true }, ExitKind.errored⟩ := by
  simp [executeLoop, is_connected, h, hm, hs]

/-- Unfolding: a connected iteration with `msgs` at `msg_count` breaks out of
the loop. -/
theorem executeLoop_step_break (conn : Nat → Bool) (stream : List String)
    (m delay fuel i msgs : Nat) (d : Driver)
    (h : conn i = true) (hm : ¬ msgs < m) :
    executeLoop conn stream m delay (fuel + 1) i msgs d =
      ⟨[], i, { d with connected := true }, ExitKind.completed⟩ := by
  simp [executeLoop, is_connected, h, hm]

/-- Every publish event in a loop trace comes from an iteration whose poll of
the connected flag returned `true`. -/
theorem executeLoop_publish_connected (conn : Nat → Bool)
    (stream : List String) (msg_count publish_delay : Nat) :
    ∀ (fuel i0 msgs : Nat) (d : Driver) (i : Nat) (p : String),
      Event.publish i p ∈
        (executeLoop conn stream msg_count publish_delay fuel i0 msgs
          d).trace →
      conn i = true := by
  intro fuel
  induction fuel with
  | zero =>
      intro i0 msgs d i p h
      simp [executeLoop] at h
  | succ n ih =>
      intro i0 msgs d i p h
      rw [executeLoop] at h
      cases hc : conn i0 with
      | false =>
          simp only [is_connected, hc, Bool.false_eq_true, if_false,
            List.mem_cons] at h
          rcases h with h1 | h2
          · exact absurd h1 (by simp)
          · exact ih (i0 + 1) msgs _ i p h2
      | true =>
          simp only [is_connected, hc, if_true] at h
          by_cases hm : msgs < msg_count
          · rw [if_pos hm] at h
            cases hs : stream[msgs]? with
            | none => rw [hs] at h; simp at h
            | some payload =>
                rw [hs] at h
                simp only [List.mem_cons] at h
                rcases h with h1 | (h2 | h3)
                · injection h1 with hi hp
                  subst hi
                  exact hc
                · exact absurd h2 (by simp)
                · exact ih (i0 + 1) (msgs + 1) _ i p h3
          · rw [if_neg hm] at h
            simp at h

/-- The number of publish events a loop run adds is bounded by the remaining
budget `msg_count - msgs`. -/
theorem executeLoop_publish_count (conn : Nat → Bool) (stream : List String)
    (m delay : Nat) :
    ∀ (fuel i msgs : Nat) (d : Driver),
      (publishPayloads
        (executeLoop conn stream m delay fuel i msgs d).trace).length ≤
        m - msgs := by
  intro fuel
  induction fuel with
  | zero =>
      intro i msgs d
      simp [executeLoop_zero, publishPayloads]
  | succ n ih =>
      intro i msgs d
      cases hc : conn i with
      | false =>
          rw [executeLoop_step_disconnected conn stream m delay n i msgs d hc]
          simpa [publishPayloads, eventPayload] using
            ih (i + 1) msgs { d with connected := false }
      | true =>
          by_cases hm : msgs < m
          · cases hs : stream[msgs]? with
            | none =>
                rw [executeLoop_step_exhausted conn stream m delay n i msgs d
                  hc hm hs]
                simp [publishPayloads]
            | some p =>
                rw [executeLoop_step_publish conn stream m delay n i msgs d p
                  hc hm hs]
                have h2 := ih (i + 1) (msgs + 1) { d with connected := true }
                simp only [publishPayloads, List.filterMap_cons,
                  eventPayload] at h2 ⊢
                simp only [List.length_cons]
                omega
          · rw [executeLoop_step_break conn stream m delay n i msgs d hc hm]
            simp [publishPayloads]

/-- Every iteration that completed and continued (index below the exit
iteration) contributed a sleep of the full `publish_delay` to the trace. -/
theorem executeLoop_sleep_every_iteration (conn : Nat → Bool)
    (stream : List String) (m delay : Nat) :
    ∀ (fuel i0 msgs : Nat) (d : Driver) (j : Nat), i0 ≤ j →
      j < (executeLoop conn stream m delay fuel i0 msgs d).finalIter →
      Event.sleep j delay ∈
        (executeLoop conn stream m delay fuel i0 msgs d).trace := by
  intro fuel
  induction fuel with
  | zero =>
      intro i0 msgs d j hle hlt
      rw [executeLoop_zero] at hlt
      simp at hlt
      omega
  | succ n ih =>
      intro i0 msgs d j hle hlt
      cases hc : conn i0 with
      | false =>
          rw [executeLoop_step_disconnected conn stream m delay n i0 msgs d
            hc] at hlt ⊢
          rcases Nat.eq_or_lt_of_le hle with rfl | hgt
          · exact List.mem_cons_self _ _
          · exact List.mem_cons_of_mem _
              (ih (i0 + 1) msgs { d with connected := false } j hgt hlt)
      | true =>
          by_cases hm : msgs < m
          · cases hs : stream[msgs]? with
            | none =>
                rw [executeLoop_step_exhausted conn stream m delay n i0 msgs d
                  hc hm hs] at hlt
                simp at hlt
                omega
            | some p =>
                rw [executeLoop_step_publish conn stream m delay n i0 msgs d p
                  hc hm hs] at hlt ⊢
                rcases Nat.eq_or_lt_of_le hle with rfl | hgt
                · exact List.mem_cons_of_mem _ (List.mem_cons_self _ _)
                · exact List.mem_cons_of_mem _ (List.mem_cons_of_mem _
                    (ih (i0 + 1) (msgs + 1) { d with connected := true } j
                      hgt hlt))
          · rw [executeLoop_step_break conn stream m delay n i0 msgs d hc
              hm] at hlt
            simp at hlt
            omega

/-- Every sleep event in a loop trace sleeps exactly `publish_delay`. -/
theorem executeLoop_sleep_duration (conn : Nat → Bool)
    (stream : List String) (m delay : Nat) :
    ∀ (fuel i0 msgs : Nat) (d : Driver) (i dur : Nat),
      Event.sleep i dur ∈
        (executeLoop conn stream m delay fuel i0 msgs d).trace →
      dur = delay := by
  intro fuel
  induction fuel with
  | zero =>
      intro i0 msgs d i dur h
      rw [executeLoop_zero] at h
      simp at h
  | succ n ih =>
      intro i0 msgs d i dur h
      cases hc : conn i0 with
      | false =>
          rw [executeLoop_step_disconnected conn stream m delay n i0 msgs d
            hc] at h
          rcases List.mem_cons.mp h with h1 | h2
          · injection h1 with hi hd
          · exact ih (i0 + 1) msgs { d with connected := false } i dur h2
      | true =>
          by_cases hm : msgs < m
          · cases hs : stream[msgs]? with
            | none =>
                rw [executeLoop_step_exhausted conn stream m delay n i0 msgs d
                  hc hm hs] at h
                simp at h
            | some p =>
                rw [executeLoop_step_publish conn stream m delay n i0 msgs d p
                  hc hm hs] at h
                rcases List.mem_cons.mp h with h1 | h2
                · exact absurd h1 (by simp)
                · rcases List.mem_cons.mp h2 with h3 | h4
                  · injection h3 with hi hd
                  · exact ih (i0 + 1) (msgs + 1) { d with connected := true }
                      i dur h4
          · rw [executeLoop_step_break conn stream m delay n i0 msgs d hc
              hm] at h
            simp at h

/-- Against a broker that reports connected at every poll, a loop run with
budget `k = msg_count - msgs` and fuel `k + 1` publishes exactly the next
`k` available stream items, in stream order, and exits (by the `break` or,
on stream exhaustion, by the raised exception). -/
theorem executeLoop_connected_run (stream : List String) (m delay : Nat) :
    ∀ (k i msgs : Nat) (d : Driver), msgs + k = m →
      publishPayloads
          (executeLoop (fun _ => true) stream m delay (k + 1) i msgs
            d).trace =
        (stream.drop msgs).take k ∧
      (executeLoop (fun _ => true) stream m delay (k + 1) i msgs d).exit ≠
        ExitKind.outOfFuel := by
  intro k
  induction k with
  | zero =>
      intro i msgs d hk
      have hm : ¬ msgs < m := by omega
      rw [executeLoop_step_break (fun _ => true) stream m delay 0 i msgs d
        rfl hm]
      simp [publishPayloads]
  | succ k ih =>
      intro i msgs d hk
      have hm : msgs < m := by omega
      cases hs : stream[msgs]? with
      | none =>
          have hd : stream.drop msgs = [] :=
            drop_of_getElem?_none stream msgs hs
          rw [executeLoop_step_exhausted (fun _ => true) stream m delay
            (k + 1) i msgs d rfl hm hs]
          simp [publishPayloads, hd]
      | some p =>
          have hd : stream.drop msgs = p :: stream.drop (msgs + 1) :=
            drop_of_getElem?_some stream msgs p hs
          obtain ⟨ih1, ih2⟩ :=
            ih (i + 1) (msgs + 1) { d with connected := true } (by omega)
          rw [executeLoop_step_publish (fun _ => true) stream m delay (k + 1)
            i msgs d p rfl hm hs]
          constructor
          · simp only [publishPayloads, List.filterMap_cons, eventPayload,
              hd, List.take_succ_cons]
            simpa [publishPayloads] using ih1
          · simpa using ih2

/-- Against a broker that never reports connected, the loop never exits:
every fuel bound is exhausted with the loop still running. -/
theorem executeLoop_never_connected (stream : List String) (m delay : Nat) :
    ∀ (fuel i msgs : Nat) (d : Driver),
      (executeLoop (fun _ => false) stream m delay fuel i msgs d).exit =
        ExitKind.outOfFuel := by
  intro fuel
  induction fuel with
  | zero =>
      intro i msgs d
      rw [executeLoop_zero]
  | succ n ih =>
      intro i msgs d
      rw [executeLoop_step_disconnected (fun _ => false) stream m delay n i
        msgs d rfl]
      exact ih (i + 1) msgs { d with connected := false }

example : connection_result 3 = some "refused - server unavailable" := rfl

example :
    on_connect ⟨false, false, false⟩ 0 =
      Except.ok (⟨true, true, false⟩, "success") := rfl

/-! ## Claim theorems -/

/-- C1: the claim says `on_connect` sets the state to Connected only for a
success result code and leaves it not-Connected on every failure code. The
code does the opposite: for the failure code `rc = 1` ("refused - incorrect
protocol version"), `on_connect` on a not-connected driver still subscribes
and sets `connected = True`, reporting the refusal reason. -/
theorem onConnect_sets_connected_on_refusal :
    connection_result 1 = some "refused - incorrect protocol version" ∧
    on_connect ⟨false, false, false⟩ 1 =
      Except.ok (⟨true, true, false⟩,
        "refused - incorrect protocol version") :=
  ⟨rfl, rfl⟩

/-- C9: for every result code outside the fixed table `{0,...,5}` the lookup
`connection_result[rc]` has no entry and `on_connect` raises a `KeyError`
(modelled as `Except.error rc`) before reporting anything or changing state;
for every code inside the table the reported reason string is exactly the
table entry, and the driver is subscribed and marked connected. -/
theorem onConnect_keyerror_outside_table (d : Driver) (rc : Nat) :
    (6 ≤ rc → connection_result rc = none) ∧
    (connection_result rc = none → on_connect d rc = Except.error rc) ∧
    (∀ r, connection_result rc = some r →
      on_connect d rc =
        Except.ok ({ d with subscribed := true, connected := true }, r)) := by
  refine ⟨?_, ?_, ?_⟩
  · intro h
    obtain ⟨n, rfl⟩ : ∃ n, rc = n + 6 := ⟨rc - 6, by omega⟩
    rfl
  · intro h
    simp [on_connect, h]
  · intro r h
    simp [on_connect, h]

/-- Witness for C9 at concrete codes: `rc = 6` lies outside the table and
raises `KeyError 6`; `rc = 4` is inside the table and reports exactly
"refused - bad username or password". -/
theorem onConnect_keyerror_outside_table_witness :
    connection_result 6 = none ∧
    on_connect ⟨false, false, false⟩ 6 = Except.error 6 ∧
    on_connect ⟨false, false, false⟩ 4 =
      Except.ok (⟨true, true, false⟩,
        "refused - bad username or password") :=
  ⟨(onConnect_keyerror_outside_table ⟨false, false, false⟩ 6).1 (by omega),
   (onConnect_keyerror_outside_table ⟨false, false, false⟩ 6).2.1 rfl,
   (onConnect_keyerror_outside_table ⟨false, false, false⟩ 4).2.2 _ rfl⟩

/-- C8: `iot_central_monitor_events` rejects every negative `timeout` with
the `CLIError` before any service interaction (the returned value is the
error, no executor call is built), forwards `timeout = 0` as `0`
milliseconds — the value the executor treats as wait forever — and forwards
every positive `timeout` (seconds) as `timeout * 1000` milliseconds. -/
theorem monitor_timeout_contract (t : Int) (enq : Option Int)
    (props : Option (List String)) (outp : Option String) (now : Int) :
    (t < 0 → iot_central_monitor_events t enq props outp now =
      Except.error "Monitoring timeout must be 0 (inf) or greater.") ∧
    (t = 0 → ∃ c, iot_central_monitor_events t enq props outp now =
      Except.ok c ∧ c.timeout = 0 ∧ executor_waits_forever c.timeout = true) ∧
    (0 < t → ∃ c, iot_central_monitor_events t enq props outp now =
      Except.ok c ∧ c.timeout = t * 1000) := by
  refine ⟨?_, ?_, ?_⟩
  · intro h
    simp [iot_central_monitor_events, h]
  · intro h
    subst h
    unfold iot_central_monitor_events
    rw [if_neg (by omega)]
    exact ⟨_, rfl, by norm_num, by norm_num [executor_waits_forever]⟩
  · intro h
    unfold iot_central_monitor_events
    rw [if_neg (by omega)]
    exact ⟨_, rfl, rfl⟩

/-- Witness for C8 at concrete inputs: `timeout = -1` errors,
`timeout = 0` forwards `0` ms (wait forever), `timeout = 7` forwards
`7000` ms. -/
theorem monitor_timeout_contract_witness :
    (iot_central_monitor_events (-1) none none none 42 =
      Except.error "Monitoring timeout must be 0 (inf) or greater.") ∧
    (∃ c, iot_central_monitor_events 0 none none none 42 = Except.ok c ∧
      c.timeout = 0 ∧ executor_waits_forever c.timeout = true) ∧
    (∃ c, iot_central_monitor_events 7 none none none 42 = Except.ok c ∧
      c.timeout = 7 * 1000) :=
  ⟨(monitor_timeout_contract (-1) none none none 42).1 (by norm_num),
   (monitor_timeout_contract 0 none none none 42).2.1 rfl,
   (monitor_timeout_contract 7 none none none 42).2.2 (by norm_num)⟩

/-- C10: in `iot_central_monitor_events` a falsy `enqueued_time` — the
default `None` or a caller-supplied `0` — is replaced by the current UTC
milliseconds since the epoch (`now_ms`), so a replay from epoch time `0`
cannot be requested; every non-zero `enqueued_time` is forwarded to the
executor unchanged. -/
theorem monitor_enqueued_time_replacement (t : Int)
    (props : Option (List String)) (outp : Option String) (now v : Int)
    (ht : 0 ≤ t) :
    (∃ c, iot_central_monitor_events t none props outp now = Except.ok c ∧
      c.enqueued_time = now) ∧
    (∃ c, iot_central_monitor_events t (some 0) props outp now =
      Except.ok c ∧ c.enqueued_time = now) ∧
    (v ≠ 0 → ∃ c, iot_central_monitor_events t (some v) props outp now =
      Except.ok c ∧ c.enqueued_time = v) := by
  refine ⟨?_, ?_, ?_⟩
  · unfold iot_central_monitor_events
    rw [if_neg (by omega)]
    exact ⟨_, rfl, rfl⟩
  · unfold iot_central_monitor_events
    rw [if_neg (by omega)]
    exact ⟨_, rfl, rfl⟩
  · intro hv
    unfold iot_central_monitor_events
    rw [if_neg (by omega)]
    exact ⟨_, rfl, by simp [hv]⟩

/-- Witness for C10 at concrete inputs: with `now_ms = 99`, an absent and a
zero `enqueued_time` both forward `99`, while `enqueued_time = 5` is
forwarded unchanged. -/
theorem monitor_enqueued_time_replacement_witness :
    (∃ c, iot_central_monitor_events 3 none none none 99 = Except.ok c ∧
      c.enqueued_time = 99) ∧
    (∃ c, iot_central_monitor_events 3 (some 0) none none 99 =
      Except.ok c ∧ c.enqueued_time = 99) ∧
    (∃ c, iot_central_monitor_events 3 (some 5) none none 99 =
      Except.ok c ∧ c.enqueued_time = 5) :=
  ⟨(monitor_enqueued_time_replacement 3 none none 99 5 (by norm_num)).1,
   (monitor_enqueued_time_replacement 3 none none 99 5 (by norm_num)).2.1,
   (monitor_enqueued_time_replacement 3 none none 99 5 (by norm_num)).2.2
     (by norm_num)⟩

example :
    publishPayloads
      (execute ⟨false, false, false⟩ (fun _ => true) ["a", "b"] 0 2
        3).out.trace = ["a", "b"] := by decide

example :
    (execute ⟨false, false, false⟩ (fun _ => true) ["a", "b"] 0 2
        3).out.exit = ExitKind.completed := by decide

/-- C2 (counterexample): against a broker that never reports connected,
`execute` never terminates — no fuel bound makes the loop exit — although
`min(maxCount, available stream items while connected) = 0` publishes have
been issued, so the claim's unconditional termination fails. -/
theorem execute_never_connected_never_exits :
    ¬ ∃ fuel, (execute ⟨false, false, false⟩ (fun _ => false) ["a"] 0 2
        fuel).out.exit ≠ ExitKind.outOfFuel := by
  rintro ⟨fuel, h⟩
  exact h (executeLoop_never_connected ["a"] 2 0 fuel 0 0
    (loop_start ⟨false, false, false⟩))

/-- C2 (amended): against a broker that reports connected at every poll,
`execute` issues exactly `min(msg_count, stream length)` publish calls —
the first `min(msg_count, stream length)` stream items in order — and then
terminates; in particular `execute` with stream `["a", "b"]`,
`publish_delay = 0` and `msg_count = 2` publishes exactly "a" then "b" and
returns. -/
theorem execute_connected_publishes_min (stream : List String)
    (publish_delay msg_count : Nat) (d : Driver) :
    publishPayloads
        (execute d (fun _ => true) stream publish_delay msg_count
          (msg_count + 1)).out.trace = stream.take msg_count ∧
    (publishPayloads
        (execute d (fun _ => true) stream publish_delay msg_count
          (msg_count + 1)).out.trace).length = min msg_count stream.length ∧
    (execute d (fun _ => true) stream publish_delay msg_count
        (msg_count + 1)).out.exit ≠ ExitKind.outOfFuel := by
  obtain ⟨h1, h2⟩ := executeLoop_connected_run stream msg_count publish_delay
    msg_count 0 0 (loop_start d) (by omega)
  refine ⟨?_, ?_, ?_⟩
  · simpa using h1
  · have := congrArg List.length h1
    simpa [List.length_take] using this
  · exact h2

/-- C3 (counterexample): a complete run of `execute` against an
always-connected broker ends with the cleanup path having run, yet the
driver's `connected` flag is still `True`, not the claimed `False`. -/
theorem execute_cleanup_leaves_connected_true :
    ¬ ((execute ⟨false, false, false⟩ (fun _ => true) ["a"] 0 1
        5).driver.connected = false) := by decide

/-- C3 (amended): whenever `execute` exits, its cleanup path has stopped the
I/O event-loop background thread — `loopRunning` is `false` — but the
`connected` flag is not reset: it keeps exactly the value it had when the
loop exited. -/
theorem execute_cleanup_stops_loop_preserves_connected (d : Driver)
    (conn : Nat → Bool) (stream : List String)
    (publish_delay msg_count fuel : Nat)
    (h : (execute d conn stream publish_delay msg_count fuel).out.exit ≠
      ExitKind.outOfFuel) :
    (execute d conn stream publish_delay msg_count
        fuel).driver.loopRunning = false ∧
    (execute d conn stream publish_delay msg_count fuel).driver.connected =
      (execute d conn stream publish_delay msg_count
        fuel).out.finalDriver.connected := by
  simp only [execute] at h ⊢
  rw [if_neg h]
  exact ⟨rfl, rfl⟩

/-- Witness for C3 (amended) at a concrete run: the completed run stops the
thread and keeps `connected` equal to its value at loop exit. -/
theorem execute_cleanup_stops_loop_preserves_connected_witness :
    (execute ⟨false, false, false⟩ (fun _ => true) ["a"] 0 1
        5).driver.loopRunning = false ∧
    (execute ⟨false, false, false⟩ (fun _ => true) ["a"] 0 1
        5).driver.connected =
      (execute ⟨false, false, false⟩ (fun _ => true) ["a"] 0 1
        5).out.finalDriver.connected :=
  execute_cleanup_stops_loop_preserves_connected ⟨false, false, false⟩
    (fun _ => true) ["a"] 0 1 5 (by decide)

/-- C4: every `client.publish` call inside `execute` happens in an iteration
whose `is_connected()` poll returned `True`: a publish attempt never occurs
while the state is not Connected. -/
theorem publish_only_when_connected (d : Driver) (conn : Nat → Bool)
    (stream : List String) (publish_delay msg_count fuel : Nat)
    (i : Nat) (p : String)
    (h : Event.publish i p ∈
      (execute d conn stream publish_delay msg_count fuel).out.trace) :
    conn i = true :=
  executeLoop_publish_connected conn stream msg_count publish_delay fuel 0 0
    (loop_start d) i p h

/-- Witness for C4 at a concrete run: the publish of "a" at iteration `0`
happened with the connected flag reading `true` there. -/
theorem publish_only_when_connected_witness :
    (Event.publish 0 "a" ∈
      (execute ⟨false, false, false⟩ (fun _ => true) ["a"] 0 1
        3).out.trace) ∧
    (fun (_ : Nat) => true) 0 = true :=
  ⟨by decide,
   publish_only_when_connected ⟨false, false, false⟩ (fun _ => true) ["a"]
     0 1 3 0 "a" (by decide)⟩

/-- C5: in every run of `execute` the sent-message counter starts at `0` and
is incremented only while strictly below `msg_count`, so the number of
publishes issued never exceeds `msg_count`. -/
theorem publish_count_le_msg_count (d : Driver) (conn : Nat → Bool)
    (stream : List String) (publish_delay msg_count fuel : Nat) :
    (publishPayloads
      (execute d conn stream publish_delay msg_count
        fuel).out.trace).length ≤ msg_count := by
  have h := executeLoop_publish_count conn stream msg_count publish_delay
    fuel 0 0 (loop_start d)
  simpa using h

/-- C6: on every exit path of `execute` — the normal `break` once `msgs`
reaches `msg_count`, and an exception raised in the loop (the modelled
transport/stream fault) — the `finally` clause has run `client.loop_stop()`,
so no failure leaves the I/O event loop running. -/
theorem execute_exit_paths_stop_loop (d : Driver) (conn : Nat → Bool)
    (stream : List String) (publish_delay msg_count fuel : Nat)
    (h : (execute d conn stream publish_delay msg_count fuel).out.exit =
        ExitKind.completed ∨
      (execute d conn stream publish_delay msg_count fuel).out.exit =
        ExitKind.errored) :
    (execute d conn stream publish_delay msg_count
      fuel).driver.loopRunning = false := by
  have hne : (execute d conn stream publish_delay msg_count fuel).out.exit ≠
      ExitKind.outOfFuel := by
    rcases h with h | h <;> simp [h]
  simp only [execute] at hne ⊢
  rw [if_neg hne]
  rfl

/-- Witness for C6 at a concrete exceptional run: with an empty stream the
`generate` call raises, the loop exits on the error path, and the event loop
thread is stopped. -/
theorem execute_exit_paths_stop_loop_witness :
    (execute ⟨false, false, false⟩ (fun _ => true) ([] : List String) 0 1
        2).driver.loopRunning = false :=
  execute_exit_paths_stop_loop ⟨false, false, false⟩ (fun _ => true)
    ([] : List String) 0 1 2 (Or.inr (by decide))

/-- C7: every iteration of the publish loop that completed and continued —
whether or not it published, in particular every disconnected iteration —
slept for the full `publish_delay`, and every sleep in the trace is for
exactly `publish_delay`: the loop paces at one iteration per
`publish_delay` rather than busy-spinning. -/
theorem loop_iterations_sleep_full_delay (d : Driver) (conn : Nat → Bool)
    (stream : List String) (publish_delay msg_count fuel : Nat) :
    (∀ j, j < (execute d conn stream publish_delay msg_count
        fuel).out.finalIter →
      Event.sleep j publish_delay ∈
        (execute d conn stream publish_delay msg_count fuel).out.trace) ∧
    (∀ i dur, Event.sleep i dur ∈
        (execute d conn stream publish_delay msg_count fuel).out.trace →
      dur = publish_delay) :=
  ⟨fun j hj => executeLoop_sleep_every_iteration conn stream msg_count
      publish_delay fuel 0 0 (loop_start d) j (Nat.zero_le j) hj,
   fun i dur h => executeLoop_sleep_duration conn stream msg_count
      publish_delay fuel 0 0 (loop_start d) i dur h⟩

/-- Witness for C7 at a concrete run with `publish_delay = 5`: iteration `0`
(below the exit iteration `1`) slept the full `5`. -/
theorem loop_iterations_sleep_full_delay_witness :
    Event.sleep 0 5 ∈
      (execute ⟨false, false, false⟩ (fun _ => true) ["a"] 5 1
        3).out.trace :=
  (loop_iterations_sleep_full_delay ⟨false, false, false⟩ (fun _ => true)
    ["a"] 5 1 3).1 0 (by decide)
